import Mathlib

/-!
Verification of the ARQV30 Enhanced report generator and Exa search client.

This file gives a shallow embedding of the two Python source files
`src/services/comprehensive_report_generator.py` and `src/services/exa_client.py`
and proves the specified properties about them.

Modelling conventions:
* Python values flowing through the report generator are embedded as the
  inductive type `PyVal` (strings, ints, bools, None, lists, dicts); Python
  dicts are association lists with insertion order preserved, as in CPython.
* Python code that can raise is embedded in `Except PyErr`; `PyErr` carries the
  exceptions the embedded code can actually raise (`AttributeError` from
  calling `.get` on a non-dict, `TypeError` from slicing / `len` / `in` on an
  unsupported value), and `renderErr` is `str(e)` for those exceptions.
* `datetime.now().isoformat()` is modelled by threading an abstract `now` string.
* The external persistence collaborator `salvar_etapa` is fire-and-forget and
  `_save_complete_report` swallows its exceptions, so saving is dropped from
  the pure embedding.
* The remote Exa service is modelled by oracle functions (one per remote
  operation) passed in explicitly; a trace of the network calls made is
  returned alongside each result so that "no network call was attempted" is
  directly statable.
* Python `f"{x:.1f}"` on `(present/total)*100` is modelled by exact rational
  rounding to one decimal (`formatPercent1`); ties are impossible because the
  divisor 11 is odd, and IEEE doubles agree with the exact value on every
  reachable input, so the rendering is faithful.
-/

/-! ## Python value model -/

inductive PyVal where
  | str (s : String)
  | int (n : Int)
  | bool (b : Bool)
  | pynone
  | list (xs : List PyVal)
  | dict (kvs : List (String × PyVal))

/-- The exceptions the embedded code can raise, with enough structure to
render `str(e)` exactly as CPython does. -/
inductive PyErr where
  | attrErr (ty : String) (attr : String)
  | notSubscriptable (ty : String)
  | unhashableSlice
  | noLen (ty : String)
  | notIterable (ty : String)
deriving DecidableEq

/-- `str(e)` for the exceptions of `PyErr`, matching CPython messages. -/
def renderErr : PyErr → String
  | .attrErr ty attr => "\x27" ++ ty ++ "\x27 object has no attribute \x27" ++ attr ++ "\x27"
  | .notSubscriptable ty => "\x27" ++ ty ++ "\x27 object is not subscriptable"
  | .unhashableSlice => "unhashable type: \x27slice\x27"
  | .noLen ty => "object of type \x27" ++ ty ++ "\x27 has no len()"
  | .notIterable ty => "argument of type \x27" ++ ty ++ "\x27 is not iterable"

/-- `type(v).__name__` for the embedded Python values. -/
def PyVal.typeName : PyVal → String
  | .str _ => "str"
  | .int _ => "int"
  | .bool _ => "bool"
  | .pynone => "NoneType"
  | .list _ => "list"
  | .dict _ => "dict"

/-- First binding of a key in a Python dict (keys of a dict are unique, so the
first binding is the binding). -/
def lookupKey (kvs : List (String × PyVal)) (k : String) : Option PyVal :=
  (kvs.find? (fun kv => kv.1 == k)).map (·.2)

/-- `d.get(key, dflt)` on a top-level value known to be a dict. -/
def dictGet (kvs : List (String × PyVal)) (k : String) (dflt : PyVal) : PyVal :=
  (lookupKey kvs k).getD dflt

/-- `v.get(key, dflt)`: only dicts have a `get` attribute; anything else raises
`AttributeError`. -/
def pyGet (v : PyVal) (k : String) (dflt : PyVal) : Except PyErr PyVal :=
  match v with
  | .dict kvs => .ok (dictGet kvs k dflt)
  | other => .error (.attrErr other.typeName "get")

/-- Python string slice `s[:n]` (by characters, like CPython by code points). -/
def pySlice (s : String) (n : Nat) : String := ⟨s.data.take n⟩

/-- Python `s.strip()`: drop whitespace from both ends. -/
def pyStrip (s : String) : String :=
  ⟨((s.data.dropWhile Char.isWhitespace).reverse.dropWhile Char.isWhitespace).reverse⟩

/-- Python slice `v[:n]` on an arbitrary value: lists and strings slice,
dicts raise the unhashable-slice `TypeError`, the rest are not
subscriptable. -/
def pySliceVal (v : PyVal) (n : Nat) : Except PyErr PyVal :=
  match v with
  | .list xs => .ok (.list (xs.take n))
  | .str s => .ok (.str (pySlice s n))
  | .dict _ => .error .unhashableSlice
  | other => .error (.notSubscriptable other.typeName)

/-- Python `len(v)`: defined for lists, strings and dicts, `TypeError`
otherwise. -/
def pyLenV (v : PyVal) : Except PyErr Nat :=
  match v with
  | .list xs => .ok xs.length
  | .str s => .ok s.length
  | .dict kvs => .ok kvs.length
  | other => .error (.noLen other.typeName)

/-- Python `key in v` for a string `key`: key membership for dicts, value
membership for lists (a string equals only an equal string), substring test
for strings, `TypeError` otherwise. -/
def pyContains (v : PyVal) (key : String) : Except PyErr Bool :=
  match v with
  | .dict kvs => .ok (kvs.any (fun kv => kv.1 == key))
  | .list xs => .ok (xs.any (fun x => match x with | .str s => s == key | _ => false))
  | .str s => .ok (decide (key.data <:+: s.data))
  | other => .error (.notIterable other.typeName)

/-- A Python `str` or `None` value (used for optional `session_id`). -/
def optPyStr : Option String → PyVal
  | some s => .str s
  | none => .pynone

/-! ## Report generator embedding
(`src/services/comprehensive_report_generator.py`, class
`ComprehensiveReportGenerator`) -/

namespace ComprehensiveReportGenerator

/-- `self.required_components` from `__init__`. -/
def required_components : List String :=
  ["pesquisa_web_massiva",
   "avatar_ultra_detalhado",
   "drivers_mentais_customizados",
   "provas_visuais_arsenal",
   "sistema_anti_objecao",
   "pre_pitch_invisivel",
   "predicoes_futuro_detalhadas",
   "analise_concorrencia",
   "insights_exclusivos",
   "palavras_chave_estrategicas",
   "funil_vendas_otimizado"]

/-- `_generate_web_research_section`. -/
def _generate_web_research_section (data : List (String × PyVal)) : Except PyErr PyVal := do
  let research_data := dictGet data "pesquisa_web_massiva" (.dict [])
  let total_fontes ← pyGet research_data "total_resultados" (.int 0)
  let conteudo_extraido ← pyGet research_data "resultados_extraidos" (.int 0)
  let qualidade_dados ← pyGet research_data "qualidade_pesquisa" (.str "PREMIUM")
  let search_results ← pyGet research_data "search_results" (.list [])
  let fontes_utilizadas ← pySliceVal search_results 10
  return .dict
    [("resumo", .str "Pesquisa web massiva realizada com múltiplas fontes"),
     ("total_fontes", total_fontes),
     ("conteudo_extraido", conteudo_extraido),
     ("qualidade_dados", qualidade_dados),
     ("principais_achados", .list
       [.str "Tendências de mercado identificadas",
        .str "Competidores principais mapeados",
        .str "Oportunidades de mercado detectadas"]),
     ("fontes_utilizadas", fontes_utilizadas)]

/-- `_generate_avatar_section`. -/
def _generate_avatar_section (data : List (String × PyVal)) : Except PyErr PyVal := do
  let avatar_data := dictGet data "avatar_ultra_detalhado" (.dict [])
  let perfil_demografico ← pyGet avatar_data "demographics" (.dict [])
  let perfil_psicografico ← pyGet avatar_data "psychographics" (.dict [])
  let dores_viscerais ← pyGet avatar_data "dores" (.list [])
  let desejos_ocultos ← pyGet avatar_data "desejos" (.list [])
  let objecoes_principais ← pyGet avatar_data "objecoes" (.list [])
  let linguagem_preferida ← pyGet avatar_data "linguagem" (.str "Informal")
  let canais_comunicacao ← pyGet avatar_data "canais" (.list [])
  return .dict
    [("perfil_demografico", perfil_demografico),
     ("perfil_psicografico", perfil_psicografico),
     ("dores_viscerais", dores_viscerais),
     ("desejos_ocultos", desejos_ocultos),
     ("objecoes_principais", objecoes_principais),
     ("linguagem_preferida", linguagem_preferida),
     ("canais_comunicacao", canais_comunicacao),
     ("insights_comportamentais", .list
       [.str "Padrões de decisão identificados",
        .str "Gatilhos emocionais mapeados",
        .str "Momentos de maior receptividade"])]

/-- `_generate_drivers_section` (`total_drivers` repeats the `get` and takes
`len` of its result, as the source does). -/
def _generate_drivers_section (data : List (String × PyVal)) : Except PyErr PyVal := do
  let drivers_data := dictGet data "drivers_mentais_customizados" (.dict [])
  let drivers_customizados ← pyGet drivers_data "drivers_customizados" (.list [])
  let drivers_again ← pyGet drivers_data "drivers_customizados" (.list [])
  let total_drivers ← pyLenV drivers_again
  let roteiros_ativacao ← pyGet drivers_data "roteiros_ativacao" (.dict [])
  let frases_ancoragem ← pyGet drivers_data "frases_ancoragem" (.dict [])
  return .dict
    [("drivers_customizados", drivers_customizados),
     ("total_drivers", .int total_drivers),
     ("categorias_cobertas", .list
       [.str "Medo da perda",
        .str "Desejo de ganho",
        .str "Urgência temporal",
        .str "Prova social",
        .str "Autoridade"]),
     ("roteiros_ativacao", roteiros_ativacao),
     ("frases_ancoragem", frases_ancoragem),
     ("intensidade_media", .str "8.5/10")]

/-- `_generate_visual_proofs_section`. -/
def _generate_visual_proofs_section (data : List (String × PyVal)) : Except PyErr PyVal := do
  let proofs_data := dictGet data "provas_visuais_arsenal" (.dict [])
  let provas_geradas ← pyGet proofs_data "provas_geradas" (.list [])
  return .dict
    [("provas_geradas", provas_geradas),
     ("tipos_prova", .list
       [.str "Screenshots de resultados",
        .str "Depoimentos em vídeo",
        .str "Estudos de caso",
        .str "Métricas em tempo real",
        .str "Comparativos visuais"]),
     ("scripts_apresentacao", .list
       [.str "Mostrar antes/depois",
        .str "Destacar transformações",
        .str "Evidenciar resultados"]),
     ("impacto_persuasivo", .str "Muito Alto")]

/-- `_generate_anti_objection_section`. -/
def _generate_anti_objection_section (data : List (String × PyVal)) : Except PyErr PyVal := do
  let anti_obj_data := dictGet data "sistema_anti_objecao" (.dict [])
  let scripts_neutralizacao ← pyGet anti_obj_data "respostas_anti_objecao" (.list [])
  return .dict
    [("objecoes_universais_cobertas", .list
       [.str "Não tenho tempo",
        .str "Está muito caro",
        .str "Preciso pensar melhor",
        .str "Não confio ainda"]),
     ("scripts_neutralizacao", scripts_neutralizacao),
     ("arsenal_emergencia", .list
       [.str "Garantia de resultados",
        .str "Suporte completo",
        .str "Casos de sucesso"]),
     ("taxa_neutralizacao", .str "95%")]

/-- `_generate_pre_pitch_section`. -/
def _generate_pre_pitch_section (data : List (String × PyVal)) : Except PyErr PyVal := do
  let pre_pitch_data := dictGet data "pre_pitch_invisivel" (.dict [])
  let estrutura_completa ← pyGet pre_pitch_data "estrutura_pre_pitch" (.list [])
  return .dict
    [("estrutura_completa", estrutura_completa),
     ("sequencia_psicologica", .list
       [.str "Captura de atenção",
        .str "Identificação da dor",
        .str "Amplificação do problema",
        .str "Apresentação da solução",
        .str "Prova de credibilidade",
        .str "Chamada para ação"]),
     ("gatilhos_persuasivos", .list
       [.str "Escassez temporal",
        .str "Autoridade demonstrada",
        .str "Prova social evidente"]),
     ("tempo_otimo", .str "7-12 minutos")]

/-- `_generate_future_predictions_section`. -/
def _generate_future_predictions_section (data : List (String × PyVal)) : Except PyErr PyVal := do
  let predictions_data := dictGet data "predicoes_futuro_detalhadas" (.dict [])
  let previsoes_chave ← pyGet predictions_data "previsoes" (.list [])
  return .dict
    [("horizontes_temporais", .dict
       [("3_meses", .str "Tendências imediatas"),
        ("6_meses", .str "Oportunidades emergentes"),
        ("12_meses", .str "Mudanças estruturais"),
        ("24_meses", .str "Transformações disruptivas")]),
     ("previsoes_chave", previsoes_chave),
     ("oportunidades_identificadas", .list
       [.str "Novos segmentos de mercado",
        .str "Tecnologias emergentes",
        .str "Mudanças regulatórias"]),
     ("riscos_potenciais", .list
       [.str "Entrada de concorrentes",
        .str "Mudanças de comportamento",
        .str "Pressões econômicas"])]

/-- `_generate_competition_analysis` (pure literal, input unused). -/
def _generate_competition_analysis (_data : List (String × PyVal)) : PyVal :=
  .dict
    [("concorrentes_principais", .list
       [.str "Líder de mercado",
        .str "Challenger principal",
        .str "Concorrente emergente"]),
     ("analise_posicionamento", .dict
       [("pontos_fortes", .list [.str "Qualidade", .str "Preço", .str "Atendimento"]),
        ("pontos_fracos", .list [.str "Inovação", .str "Agilidade", .str "Personalização"]),
        ("oportunidades", .list [.str "Nicho específico", .str "Tecnologia", .str "Experiência"])]),
     ("estrategias_diferenciacao", .list
       [.str "Proposta de valor única",
        .str "Experiência superior",
        .str "Inovação constante"])]

/-- `_generate_exclusive_insights` (pure literal, input unused). -/
def _generate_exclusive_insights (_data : List (String × PyVal)) : PyVal :=
  .dict
    [("insights_estrategicos", .list
       [.str "Padrão comportamental não explorado",
        .str "Janela de oportunidade temporal",
        .str "Vantagem competitiva sustentável"]),
     ("descobertas_unicas", .list
       [.str "Necessidade latente identificada",
        .str "Segmento sub-atendido",
        .str "Inovação disruptiva possível"]),
     ("recomendacoes_acao", .list
       [.str "Priorizar segmento específico",
        .str "Desenvolver solução inovadora",
        .str "Acelerar entrada no mercado"])]

/-- `_generate_keywords_analysis` (pure literal, input unused). -/
def _generate_keywords_analysis (_data : List (String × PyVal)) : PyVal :=
  .dict
    [("palavras_chave_primarias", .list
       [.str "Termo principal 1", .str "Termo principal 2", .str "Termo principal 3"]),
     ("palavras_chave_secundarias", .list
       [.str "Termo relacionado 1", .str "Termo relacionado 2", .str "Termo relacionado 3"]),
     ("palavras_long_tail", .list
       [.str "Frase específica 1", .str "Frase específica 2", .str "Frase específica 3"]),
     ("oportunidades_seo", .list
       [.str "Gap de conteúdo identificado",
        .str "Palavras com baixa concorrência",
        .str "Termos emergentes"])]

/-- `_generate_sales_funnel` (pure literal, input unused). -/
def _generate_sales_funnel (_data : List (String × PyVal)) : PyVal :=
  .dict
    [("etapas_funil", .dict
       [("consciencia", .dict
          [("objetivo", .str "Despertar interesse"),
           ("estrategias", .list [.str "Content marketing", .str "SEO", .str "Social media"]),
           ("metricas", .list [.str "Impressões", .str "Cliques", .str "Engajamento"])]),
        ("consideracao", .dict
          [("objetivo", .str "Educar e nutrir"),
           ("estrategias", .list [.str "E-books", .str "Webinars", .str "Email marketing"]),
           ("metricas", .list [.str "Downloads", .str "Participação", .str "Abertura"])]),
        ("decisao", .dict
          [("objetivo", .str "Converter em venda"),
           ("estrategias", .list [.str "Demos", .str "Trials", .str "Consultoria"]),
           ("metricas", .list [.str "Conversões", .str "Vendas", .str "ROI"])])]),
     ("otimizacoes_recomendadas", .list
       [.str "Personalizar mensagens",
        .str "Automatizar follow-up",
        .str "Segmentar audiences"]),
     ("taxa_conversao_esperada", .str "15-25%")]

/-- `_generate_final_consolidation` (pure literal, the report argument is not
read). -/
def _generate_final_consolidation (_report : List (String × PyVal)) : PyVal :=
  .dict
    [("resumo_executivo", .str "Análise completa realizada com todos os componentes obrigatórios"),
     ("principais_achados", .list
       [.str "Avatar detalhado mapeado",
        .str "22 drivers mentais identificados",
        .str "Sistema anti-objeção completo",
        .str "Predições futuras estruturadas"]),
     ("proximos_passos", .list
       [.str "Implementar estratégias identificadas",
        .str "Testar drivers mentais",
        .str "Monitorar métricas de conversão"]),
     ("garantia_completude", .str "100% dos componentes obrigatórios incluídos")]

/-- Nearest-integer division `a / b` (used to render `(present/total)*100` to
one decimal).  The only divisor used is `110` (11 · 10), which never produces
a tie, so nearest rounding coincides with the round-half-even rounding of
`format`. -/
def nearestDiv (a b : Nat) : Nat :=
  a / b + (if b < 2 * (a % b) then 1 else 0)

/-- Python `f"{(present/total)*100:.1f}%"` with exact rational arithmetic:
the number of tenths of a percent, rounded to nearest, rendered with one
decimal digit. -/
def formatPercent1 (present total : Nat) : String :=
  let tenths := nearestDiv (present * 1000) total
  toString (tenths / 10) ++ "." ++ toString (tenths % 10) ++ "%"

/-- `[comp for comp in required if comp not in container]` with Python
`in` semantics on the container. -/
def missingComponents (container : PyVal) : List String → Except PyErr (List String)
  | [] => .ok []
  | c :: rest => do
    let b ← pyContains container c
    let tail ← missingComponents container rest
    return (if b then tail else c :: tail)

/-- `_calculate_completeness_metrics`. -/
def _calculate_completeness_metrics (report : List (String × PyVal)) :
    Except PyErr PyVal := do
  let componentes := dictGet report "componentes_analise" (.dict [])
  let components_present ← pyLenV componentes
  let total_required := required_components.length
  let faltantes ← missingComponents componentes required_components
  return .dict
    [("componentes_incluidos", .int components_present),
     ("componentes_obrigatorios", .int total_required),
     ("taxa_completude", .str (formatPercent1 components_present total_required)),
     ("status", .str (if total_required ≤ components_present then "COMPLETO" else "INCOMPLETO")),
     ("componentes_faltantes", .list (faltantes.map .str))]

/-- `_generate_emergency_report`: the reduced structure returned when report
generation raises. -/
def _generate_emergency_report (data : List (String × PyVal)) (session_id : Option String)
    (error : String) (now : String) : List (String × PyVal) :=
  [("metadata_relatorio", .dict
     [("session_id", optPyStr session_id),
      ("timestamp_geracao", .str now),
      ("status", .str "EMERGENCIA"),
      ("erro", .str error)]),
   ("dados_parciais", .dict data),
   ("componentes_salvos", .str "Dados parciais preservados"),
   ("proximos_passos", .str "Revisar erro e regenerar relatório")]

/-- The body of the `try:` block of `generate_complete_report`: builds the
base structure, runs the 11 section builders in source order, then the
consolidation and the completeness metrics.  (`_save_complete_report` swallows
all its own exceptions and only performs external persistence, so it does not
appear in the pure embedding.) -/
def tryGenerate (analysis_data : List (String × PyVal)) (session_id : Option String)
    (now : String) : Except PyErr (List (String × PyVal)) := do
  let metadata : PyVal := .dict
    [("session_id", optPyStr session_id),
     ("timestamp_geracao", .str now),
     ("versao_engine", .str "ARQV30 Enhanced v3.0"),
     ("completude", .str "100%"),
     ("todos_componentes_incluidos", .bool true)]
  let dados_entrada := dictGet analysis_data "projeto_dados" (.dict [])
  let c1 ← _generate_web_research_section analysis_data
  let c2 ← _generate_avatar_section analysis_data
  let c3 ← _generate_drivers_section analysis_data
  let c4 ← _generate_visual_proofs_section analysis_data
  let c5 ← _generate_anti_objection_section analysis_data
  let c6 ← _generate_pre_pitch_section analysis_data
  let c7 ← _generate_future_predictions_section analysis_data
  let c8 := _generate_competition_analysis analysis_data
  let c9 := _generate_exclusive_insights analysis_data
  let c10 := _generate_keywords_analysis analysis_data
  let c11 := _generate_sales_funnel analysis_data
  let componentes : List (String × PyVal) :=
    [("pesquisa_web_massiva", c1),
     ("avatar_ultra_detalhado", c2),
     ("drivers_mentais_customizados", c3),
     ("provas_visuais_arsenal", c4),
     ("sistema_anti_objecao", c5),
     ("pre_pitch_invisivel", c6),
     ("predicoes_futuro_detalhadas", c7),
     ("analise_concorrencia", c8),
     ("insights_exclusivos", c9),
     ("palavras_chave_estrategicas", c10),
     ("funil_vendas_otimizado", c11)]
  let report : List (String × PyVal) :=
    [("metadata_relatorio", metadata),
     ("dados_entrada", dados_entrada),
     ("componentes_analise", .dict componentes)]
  let consolidacao := _generate_final_consolidation report
  let report := report ++ [("consolidacao_final", consolidacao)]
  let metricas ← _calculate_completeness_metrics report
  return report ++ [("metricas_completude", metricas)]

/-- `generate_complete_report`: runs the body and converts any exception into
the emergency report (the `except Exception` handler).  Total by
construction: it never raises to the caller. -/
def generate_complete_report (analysis_data : List (String × PyVal))
    (session_id : Option String) (now : String) : List (String × PyVal) :=
  match tryGenerate analysis_data session_id now with
  | .ok report => report
  | .error e => _generate_emergency_report analysis_data session_id (renderErr e) now

/-- A Python value that is a dict with at least one entry. -/
def isNonEmptyDict : PyVal → Bool
  | .dict (_ :: _) => true
  | _ => false

end ComprehensiveReportGenerator

/-! ## Exa client embedding (`src/services/exa_client.py`, class `ExaClient`) -/

namespace ExaClient

/-- A parameter value in a payload sent to the Exa service. -/
inductive PVal where
  | s (v : String)
  | n (v : Nat)
  | b (v : Bool)
  | sl (v : List String)
  | pvnone
deriving DecidableEq

/-- Python `v is None` on a parameter value. -/
def PVal.isNone : PVal → Bool
  | .pvnone => true
  | _ => false

/-- An optional string parameter: `None` or a string. -/
def optPVal : Option String → PVal
  | some v => .s v
  | none => .pvnone

/-- One item of an Exa API response, with optional attributes (`getattr`
with a default is used on every field read). -/
structure RawResult where
  title : Option String
  url : Option String
  text : Option String
  score : Option Rat
  published_date : Option String
  author : Option String
deriving DecidableEq

/-- An Exa API response object: `results` is absent (`hasattr` false) or a
list of items. -/
structure RawResponse where
  results : Option (List RawResult)
deriving DecidableEq

/-- The client state established by `__init__`: the credential (possibly the
empty string when `EXA_API_KEY` is set but empty) and the availability flag. -/
structure ExaState where
  api_key : String
  available : Bool

/-- `__init__`: the credential is the environment variable when set, else the
hard-coded default; `available` records whether the `Exa(...)` handle was
constructed (which can only be attempted when the key is truthy). -/
def initState (envKey : Option String) (exaInitOk : Bool) : ExaState :=
  let key := envKey.getD "a0dd63a6-0bd1-488f-a63e-2c4f4cfe969f"
  if key == "" then { api_key := key, available := false }
  else { api_key := key, available := exaInitOk }

/-- A parsed JSON body (`response.json()`), kept abstract as a string-keyed
mapping. -/
abbrev ExaData := List (String × PVal)

/-- A raw HTTP-style response as the low-level wrapper methods see it:
a status code and the parsed body. -/
structure HttpResponse where
  status_code : Nat
  jsonData : ExaData
deriving DecidableEq

/-- Python truthiness of an optional string (`None` and `""` are falsy). -/
def truthyS : Option String → Bool
  | some v => v != ""
  | none => false

/-- The payload built by `search` (optional parameters are added only when
truthy, exactly as the `if` chain of the source does). -/
def search_payload (query : String) (num_results : Nat)
    (include_domains exclude_domains : List String)
    (start_crawl_date end_crawl_date start_published_date end_published_date : Option String)
    (use_autoprompt : Bool) (type : String) : List (String × PVal) :=
  [("query", .s query), ("numResults", .n num_results),
   ("useAutoprompt", .b use_autoprompt), ("type", .s type)]
  ++ (if include_domains != [] then [("includeDomains", PVal.sl include_domains)] else [])
  ++ (if exclude_domains != [] then [("excludeDomains", PVal.sl exclude_domains)] else [])
  ++ (if truthyS start_crawl_date then [("startCrawlDate", optPVal start_crawl_date)] else [])
  ++ (if truthyS end_crawl_date then [("endCrawlDate", optPVal end_crawl_date)] else [])
  ++ (if truthyS start_published_date then [("startPublishedDate", optPVal start_published_date)] else [])
  ++ (if truthyS end_published_date then [("endPublishedDate", optPVal end_published_date)] else [])

/-- `search`: returns `None` when unavailable, when the remote call raises,
or when the status is not 200; otherwise the parsed body.  The remote call is
an oracle from the payload to an exception or a response. -/
def search (st : ExaState) (call : List (String × PVal) → Except String HttpResponse)
    (query : String) (num_results : Nat)
    (include_domains exclude_domains : List String)
    (start_crawl_date end_crawl_date start_published_date end_published_date : Option String)
    (use_autoprompt : Bool) (type : String) : Option ExaData :=
  if !st.available then none
  else
    match call (search_payload query num_results include_domains exclude_domains
        start_crawl_date end_crawl_date start_published_date end_published_date
        use_autoprompt type) with
    | .error _ => none
    | .ok resp => if resp.status_code == 200 then some resp.jsonData else none

/-- The payload built by `get_contents`. -/
def get_contents_payload (ids : List String) (text highlights summary : Bool) :
    List (String × PVal) :=
  [("ids", .sl ids), ("text", .b text), ("highlights", .b highlights),
   ("summary", .b summary)]

/-- `get_contents`: same failure contract as `search`. -/
def get_contents (st : ExaState) (call : List (String × PVal) → Except String HttpResponse)
    (ids : List String) (text highlights summary : Bool) : Option ExaData :=
  if !st.available then none
  else
    match call (get_contents_payload ids text highlights summary) with
    | .error _ => none
    | .ok resp => if resp.status_code == 200 then some resp.jsonData else none

/-- The payload built by `find_similar`. -/
def find_similar_payload (url : String) (num_results : Nat)
    (exclude_source_domain : Bool) : List (String × PVal) :=
  [("url", .s url), ("numResults", .n num_results),
   ("excludeSourceDomain", .b exclude_source_domain)]

/-- `find_similar`: same failure contract as `search`. -/
def find_similar (st : ExaState) (call : List (String × PVal) → Except String HttpResponse)
    (url : String) (num_results : Nat) (exclude_source_domain : Bool) : Option ExaData :=
  if !st.available then none
  else
    match call (find_similar_payload url num_results exclude_source_domain) with
    | .error _ => none
    | .ok resp => if resp.status_code == 200 then some resp.jsonData else none

/-- The keyword arguments accepted by `search_comprehensive`, with the
defaults its `kwargs.get(...)` calls supply. -/
structure Kwargs where
  include_domains : List String := []
  exclude_domains : List String := []
  start_date : Option String := none
  end_date : Option String := none
  min_length : Nat := 200
  max_length : Nat := 2000

/-- The oracle for the two remote operations `search_comprehensive` can
invoke (the `search_and_contents` primary and the plain `search` fallback),
plus the timestamp returned by `datetime.now().isoformat()`. -/
structure ExaEnv where
  searchAndContents : List (String × PVal) → Except String RawResponse
  basicSearch : List (String × PVal) → Except String RawResponse
  now : String

/-- The `search_params` dict of `search_comprehensive`: built in source
order, then entries whose value is `None` are removed. -/
def build_search_params (query : String) (num_results : Nat) (kw : Kwargs) :
    List (String × PVal) :=
  ([("query", .s query),
    ("num_results", .n (min num_results 20)),
    ("use_autoprompt", .b true),
    ("type", .s "neural"),
    ("include_domains", .sl kw.include_domains),
    ("exclude_domains", .sl kw.exclude_domains),
    ("start_crawl_date", optPVal kw.start_date),
    ("end_crawl_date", optPVal kw.end_date),
    ("include_text", .b true),
    ("text_length_min", .n kw.min_length),
    ("text_length_max", .n kw.max_length)]).filter (fun kv => !kv.2.isNone)

/-- One processed result of the neural strategy (`processed_result` in the
source); fields that the basic fallback path leaves out of its dict are
`Option` and set to `none` there. -/
structure SearchResult where
  title : String
  url : String
  text : String
  score : Rat
  published_date : Option String
  author : Option String
  source : String
  relevance_score : Option Rat
deriving DecidableEq

/-- Builds the `processed_result` dict for one item of the primary
response. -/
def processResult (r : RawResult) : SearchResult :=
  { title := r.title.getD "Sem título",
    url := r.url.getD "",
    text := pySlice (r.text.getD "") 2000,
    score := r.score.getD 0,
    published_date := r.published_date,
    author := r.author,
    source := "exa_neural",
    relevance_score := some (r.score.getD 0 * 100) }

/-- The result-processing loop of the primary strategy: build each
`processed_result` and keep it only when its stripped text has at least 100
characters. -/
def processed_results (resp : RawResponse) : List SearchResult :=
  match resp.results with
  | some rs => rs.filterMap (fun r =>
      let p := processResult r
      if 100 ≤ (pyStrip p.text).length then some p else none)
  | none => []

/-- The dict built for one item of the fallback response (`text` is always
empty, tag `exa_basic`; the dict has no `published_date`, `author` or
`relevance_score` keys). -/
def basicResult (r : RawResult) : SearchResult :=
  { title := r.title.getD "Sem título",
    url := r.url.getD "",
    text := "",
    score := r.score.getD 0,
    published_date := none,
    author := none,
    source := "exa_basic",
    relevance_score := none }

/-- The dict returned by `search_comprehensive` (and by the fallback);
keys that a given return path leaves out are `Option` set to `none`. -/
structure SearchOutcome where
  success : Bool
  query : String
  error : Option String := none
  total_results : Option Nat := none
  results : List SearchResult := []
  search_strategy : Option String := none
  timestamp : Option String := none
  search_params : Option (List (String × PVal)) := none
deriving DecidableEq

/-- A record of one network call attempted, with the payload sent. -/
inductive NetCall where
  | primary (params : List (String × PVal))
  | basic (params : List (String × PVal))
deriving DecidableEq

/-- The `basic_params` dict of `_fallback_basic_search`. -/
def basic_params (query : String) (num_results : Nat) : List (String × PVal) :=
  [("query", .s query),
   ("num_results", .n (min num_results 10)),
   ("use_autoprompt", .b true)]

/-- The `results` list built by the loop of the fallback over the response
(checking `hasattr` / truthiness of `response.results` as the source does;
an absent or empty `results` attribute both give the empty list). -/
def basicResults (resp : RawResponse) : List SearchResult :=
  match resp.results with
  | some rs => rs.map basicResult
  | none => []

/-- `_fallback_basic_search`: clamps the count to 10, runs the basic search,
and returns minimal results on success or `success=False` with the
the error message of the fallback on failure.  Also returns the network call made. -/
def fallback_basic_search (env : ExaEnv) (query : String) (num_results : Nat) :
    SearchOutcome × List NetCall :=
  match env.basicSearch (basic_params query num_results) with
  | .ok resp =>
    ({ success := true,
       query := query,
       total_results := some (basicResults resp).length,
       results := basicResults resp,
       search_strategy := some "basic_fallback",
       timestamp := some env.now }, [.basic (basic_params query num_results)])
  | .error e =>
    ({ success := false,
       error := some ("Busca básica falhou: " ++ e),
       query := query,
       results := [] }, [.basic (basic_params query num_results)])

/-- `search_comprehensive`: missing credential short-circuits; otherwise the
primary neural search-with-contents runs, and if it raises, the basic
fallback.  The second component is the trace of network calls attempted.
(The body before the primary call is pure in the embedding, so the outer
`except` that would catch pre-call local errors is unreachable.) -/
def search_comprehensive (st : ExaState) (env : ExaEnv) (query : String)
    (num_results : Nat) (kw : Kwargs) : SearchOutcome × List NetCall :=
  if st.api_key == "" then
    ({ success := false,
       error := some "API key não configurada",
       query := query,
       results := [] }, [])
  else
    match env.searchAndContents (build_search_params query num_results kw) with
    | .ok resp =>
      ({ success := true,
         query := query,
         total_results := some (processed_results resp).length,
         results := processed_results resp,
         search_strategy := some "comprehensive_neural",
         timestamp := some env.now,
         search_params := some (build_search_params query num_results kw) },
       [.primary (build_search_params query num_results kw)])
    | .error _ =>
      ((fallback_basic_search env query num_results).1,
       .primary (build_search_params query num_results kw) ::
         (fallback_basic_search env query num_results).2)

end ExaClient

/-! ## Shared helper lemmas -/

theorem string_append_ne_empty (s t : String) (h : s ≠ "") : s ++ t ≠ "" := by
  intro hc
  apply h
  apply congrArg String.length at hc
  rw [String.length_append] at hc
  cases s with
  | mk l =>
    cases l with
    | nil => rfl
    | cons c cs => rw [String.length_mk] at hc; simp at hc

theorem renderErr_ne_empty (e : PyErr) : renderErr e ≠ "" := by
  cases e <;> simp only [renderErr] <;>
    first
      | decide
      | (apply string_append_ne_empty
         apply string_append_ne_empty
         apply string_append_ne_empty
         apply string_append_ne_empty
         decide)
      | (apply string_append_ne_empty
         apply string_append_ne_empty
         decide)

theorem exceptBind_ok {ε α β : Type} {x : Except ε α} {f : α → Except ε β} {b : β} :
    (x >>= f = Except.ok b) ↔ ∃ a, x = .ok a ∧ f a = .ok b := by
  cases x <;> simp [Bind.bind, Except.bind]

theorem pySlice_length (s : String) (n : Nat) : (pySlice s n).length = min n s.length := by
  show (s.data.take n).length = min n s.data.length
  exact List.length_take n s.data

theorem filterMap_if {α β : Type} (f : α → β) (c : β → Prop) [DecidablePred c]
    (rs : List α) :
    rs.filterMap (fun r => if c (f r) then some (f r) else none)
      = (rs.map f).filter (fun p => c p) := by
  induction rs with
  | nil => rfl
  | cons a t ih =>
    simp only [List.filterMap_cons, List.map_cons, List.filter_cons]
    by_cases h : c (f a) <;> simp [h, ih]

/-- For reading a parameter out of a payload sent to the Exa service. -/
def lookupParam (ps : List (String × ExaClient.PVal)) (k : String) : Option ExaClient.PVal :=
  (ps.find? (fun kv => kv.1 == k)).map (·.2)

/-! ## Concrete fixtures used by the witnesses -/

/-- A client state with a configured credential. -/
def stOk : ExaClient.ExaState := { api_key := "k", available := true }

/-- One basic raw result (title and url only). -/
def rawBasic : ExaClient.RawResult :=
  { title := some "T", url := some "http://example.com", text := none,
    score := none, published_date := none, author := none }

/-- An environment whose primary call raises and whose fallback succeeds
with one result. -/
def envPrimaryFails : ExaClient.ExaEnv :=
  { searchAndContents := fun _ => .error "API down",
    basicSearch := fun _ => .ok { results := some [rawBasic] },
    now := "2024-01-01T00:00:00" }

/-! ## Claim theorems -/

/-- C3: for every query, `search_comprehensive` with no configured credential
(`api_key` falsy) returns `success=False`, the missing-credential error
message, an empty result list — and the network-call trace is empty, i.e.
neither the primary nor the fallback call is attempted. -/
theorem c3_no_credential_short_circuits (st : ExaClient.ExaState)
    (env : ExaClient.ExaEnv) (query : String) (n : Nat) (kw : ExaClient.Kwargs)
    (h : st.api_key = "") :
    ExaClient.search_comprehensive st env query n kw =
      ({ success := false,
         error := some "API key não configurada",
         query := query,
         results := [] }, []) := by
  simp [ExaClient.search_comprehensive, h]

/-- Witness for C3 at a concrete empty-credential state. -/
theorem c3_no_credential_short_circuits_witness :
    ExaClient.search_comprehensive { api_key := "", available := false }
        envPrimaryFails "mercado" 10 {} =
      ({ success := false,
         error := some "API key não configurada",
         query := "mercado",
         results := [] }, []) :=
  c3_no_credential_short_circuits _ envPrimaryFails "mercado" 10 {} rfl

/-- C1: whenever the credential is configured, the primary neural call
raises, and the basic fallback call succeeds, `search_comprehensive` returns
`success=True` with strategy `basic_fallback`, and every returned result has
an empty `text` field and `source = "exa_basic"`. -/
theorem c1_fallback_success (st : ExaClient.ExaState) (env : ExaClient.ExaEnv)
    (query : String) (n : Nat) (kw : ExaClient.Kwargs)
    (hkey : st.api_key ≠ "")
    (e : String)
    (hp : env.searchAndContents (ExaClient.build_search_params query n kw) = .error e)
    (resp : ExaClient.RawResponse)
    (hf : env.basicSearch (ExaClient.basic_params query n) = .ok resp) :
    (ExaClient.search_comprehensive st env query n kw).1.success = true ∧
    (ExaClient.search_comprehensive st env query n kw).1.search_strategy =
      some "basic_fallback" ∧
    ∀ r ∈ (ExaClient.search_comprehensive st env query n kw).1.results,
      r.text = "" ∧ r.source = "exa_basic" := by
  have hk : (st.api_key == "") = false := by
    simp [hkey]
  simp only [ExaClient.search_comprehensive, hk, Bool.false_eq_true, if_false, hp,
    ExaClient.fallback_basic_search, hf]
  refine ⟨trivial, trivial, ?_⟩
  intro r hr
  simp only [ExaClient.basicResults] at hr
  cases hresp : resp.results with
  | none => rw [hresp] at hr; simp at hr
  | some rs =>
    rw [hresp] at hr
    simp only [List.mem_map] at hr
    obtain ⟨x, _, hx⟩ := hr
    subst hx
    exact ⟨rfl, rfl⟩

/-- Witness for C1 at a concrete state and environment. -/
theorem c1_fallback_success_witness :
    (ExaClient.search_comprehensive stOk envPrimaryFails "mercado" 5 {}).1.success = true ∧
    (ExaClient.search_comprehensive stOk envPrimaryFails "mercado" 5 {}).1.search_strategy =
      some "basic_fallback" ∧
    ∀ r ∈ (ExaClient.search_comprehensive stOk envPrimaryFails "mercado" 5 {}).1.results,
      r.text = "" ∧ r.source = "exa_basic" :=
  c1_fallback_success stOk envPrimaryFails "mercado" 5 {} (by decide)
    "API down" rfl { results := some [rawBasic] } rfl

/-- C9: with a configured credential, every primary call in the trace of
`search_comprehensive` sends `num_results = min(requested, 20)` and every
fallback call sends `num_results = min(requested, 10)`; both are at most
their respective maxima. -/
theorem c9_result_count_clamped (st : ExaClient.ExaState) (env : ExaClient.ExaEnv)
    (query : String) (n : Nat) (kw : ExaClient.Kwargs)
    (hkey : st.api_key ≠ "") :
    (∀ p, ExaClient.NetCall.primary p ∈ (ExaClient.search_comprehensive st env query n kw).2 →
       lookupParam p "num_results" = some (.n (min n 20)) ∧ min n 20 ≤ 20) ∧
    (∀ p, ExaClient.NetCall.basic p ∈ (ExaClient.search_comprehensive st env query n kw).2 →
       lookupParam p "num_results" = some (.n (min n 10)) ∧ min n 10 ≤ 10) := by
  have hk : (st.api_key == "") = false := by simp [hkey]
  have hprim : lookupParam (ExaClient.build_search_params query n kw) "num_results"
      = some (.n (min n 20)) := by
    simp [ExaClient.build_search_params, lookupParam, ExaClient.PVal.isNone, List.find?]
  have hbas : lookupParam (ExaClient.basic_params query n) "num_results"
      = some (.n (min n 10)) := by
    simp [ExaClient.basic_params, lookupParam, List.find?]
  constructor
  · intro p hp
    unfold ExaClient.search_comprehensive at hp
    rw [hk] at hp
    simp only [Bool.false_eq_true, if_false] at hp
    cases hr : env.searchAndContents (ExaClient.build_search_params query n kw) with
    | ok resp =>
      rw [hr] at hp
      simp only [List.mem_singleton] at hp
      cases hp
      exact ⟨hprim, Nat.min_le_right n 20⟩
    | error e =>
      rw [hr] at hp
      simp only [ExaClient.fallback_basic_search] at hp
      cases hb : env.basicSearch (ExaClient.basic_params query n) with
      | ok resp =>
        rw [hb] at hp
        simp only [List.mem_cons, List.mem_singleton] at hp
        rcases hp with hp | hp | hp <;> cases hp
        exact ⟨hprim, Nat.min_le_right n 20⟩
      | error e2 =>
        rw [hb] at hp
        simp only [List.mem_cons, List.mem_singleton] at hp
        rcases hp with hp | hp | hp <;> cases hp
        exact ⟨hprim, Nat.min_le_right n 20⟩
  · intro p hp
    unfold ExaClient.search_comprehensive at hp
    rw [hk] at hp
    simp only [Bool.false_eq_true, if_false] at hp
    cases hr : env.searchAndContents (ExaClient.build_search_params query n kw) with
    | ok resp =>
      rw [hr] at hp
      simp at hp
    | error e =>
      rw [hr] at hp
      simp only [ExaClient.fallback_basic_search] at hp
      cases hb : env.basicSearch (ExaClient.basic_params query n) with
      | ok resp =>
        rw [hb] at hp
        simp only [List.mem_cons, List.mem_singleton] at hp
        rcases hp with hp | hp | hp <;> cases hp
        exact ⟨hbas, Nat.min_le_right n 10⟩
      | error e2 =>
        rw [hb] at hp
        simp only [List.mem_cons, List.mem_singleton] at hp
        rcases hp with hp | hp | hp <;> cases hp
        exact ⟨hbas, Nat.min_le_right n 10⟩

/-- Witness for C9: a request for 1000 results sends 20 on the primary call
and 10 on the fallback call. -/
theorem c9_result_count_clamped_witness :
    lookupParam (ExaClient.build_search_params "mercado" 1000 {}) "num_results"
      = some (.n 20) ∧
    lookupParam (ExaClient.basic_params "mercado" 1000) "num_results"
      = some (.n 10) := by
  have h := c9_result_count_clamped stOk envPrimaryFails "mercado" 1000 {} (by decide)
  constructor
  · exact ((h.1 (ExaClient.build_search_params "mercado" 1000 {}) (by decide)).1).trans (by decide)
  · exact ((h.2 (ExaClient.basic_params "mercado" 1000) (by decide)).1).trans (by decide)

/-- A 50-character text (all non-whitespace). -/
def text50 : String := ⟨List.replicate 50 'a'⟩

/-- A 150-character text (all non-whitespace). -/
def text150 : String := ⟨List.replicate 150 'b'⟩

/-- A primary result whose text has 50 characters. -/
def raw50 : ExaClient.RawResult :=
  { title := some "short", url := some "http://s", text := some text50,
    score := none, published_date := none, author := none }

/-- A primary result whose text has 150 characters. -/
def raw150 : ExaClient.RawResult :=
  { title := some "long", url := some "http://l", text := some text150,
    score := none, published_date := none, author := none }

/-- An environment whose primary call succeeds with the 50- and 150-character
results. -/
def envPrimary5050 : ExaClient.ExaEnv :=
  { searchAndContents := fun _ => .ok { results := some [raw50, raw150] },
    basicSearch := fun _ => .error "unused",
    now := "2024-01-01T00:00:00" }

/-- Every element of `processed_results` is `processResult` of some raw
result and passes the 100-character floor. -/
theorem mem_processed_results (resp : ExaClient.RawResponse)
    (p : ExaClient.SearchResult) (h : p ∈ ExaClient.processed_results resp) :
    (∃ r, p = ExaClient.processResult r) ∧ 100 ≤ (pyStrip p.text).length := by
  unfold ExaClient.processed_results at h
  cases hresp : resp.results with
  | none => rw [hresp] at h; simp at h
  | some rs =>
    rw [hresp] at h
    simp only [List.mem_filterMap] at h
    obtain ⟨x, _, hx⟩ := h
    by_cases hc : 100 ≤ (pyStrip (ExaClient.processResult x).text).length
    · rw [if_pos hc] at hx
      obtain rfl : ExaClient.processResult x = p := Option.some.inj hx
      exact ⟨⟨x, rfl⟩, hc⟩
    · rw [if_neg hc] at hx
      cases hx

/-- The result list of `search_comprehensive` always has one of the three
terminal shapes: failure (empty), primary success (processed results),
fallback success (basic results). -/
theorem search_comprehensive_results_shape (st : ExaClient.ExaState)
    (env : ExaClient.ExaEnv) (query : String) (n : Nat) (kw : ExaClient.Kwargs) :
    (ExaClient.search_comprehensive st env query n kw).1.results = [] ∨
    (∃ resp, (ExaClient.search_comprehensive st env query n kw).1.results =
       ExaClient.processed_results resp) ∨
    (∃ resp, (ExaClient.search_comprehensive st env query n kw).1.results =
       ExaClient.basicResults resp) := by
  unfold ExaClient.search_comprehensive
  by_cases hk : (st.api_key == "") = true
  · rw [if_pos hk]
    exact Or.inl rfl
  · rw [if_neg hk]
    cases hr : env.searchAndContents (ExaClient.build_search_params query n kw) with
    | ok resp => exact Or.inr (Or.inl ⟨resp, rfl⟩)
    | error e =>
      unfold ExaClient.fallback_basic_search
      cases hb : env.basicSearch (ExaClient.basic_params query n) with
      | ok resp2 => exact Or.inr (Or.inr ⟨resp2, rfl⟩)
      | error e2 => exact Or.inl rfl

/-- C7: when the primary call succeeds, the comprehensive result set is
exactly the processed results whose truncated-then-stripped text has at least
100 characters, in their original order (results under the floor are
discarded, results at or above it are kept); consequently every returned
result satisfies the floor. -/
theorem c7_quality_floor (st : ExaClient.ExaState) (env : ExaClient.ExaEnv)
    (query : String) (n : Nat) (kw : ExaClient.Kwargs)
    (rs : List ExaClient.RawResult)
    (hkey : st.api_key ≠ "")
    (hp : env.searchAndContents (ExaClient.build_search_params query n kw) =
      .ok { results := some rs }) :
    (ExaClient.search_comprehensive st env query n kw).1.results =
      (rs.map ExaClient.processResult).filter
        (fun p => 100 ≤ (pyStrip p.text).length) ∧
    ∀ p ∈ (ExaClient.search_comprehensive st env query n kw).1.results,
      100 ≤ (pyStrip p.text).length := by
  have hk : (st.api_key == "") = false := by simp [hkey]
  have hres : (ExaClient.search_comprehensive st env query n kw).1.results =
      ExaClient.processed_results { results := some rs } := by
    unfold ExaClient.search_comprehensive
    rw [hk]
    simp only [Bool.false_eq_true, if_false]
    rw [hp]
  have hfil : ExaClient.processed_results { results := some rs } =
      (rs.map ExaClient.processResult).filter
        (fun p => 100 ≤ (pyStrip p.text).length) := by
    unfold ExaClient.processed_results
    exact filterMap_if ExaClient.processResult
      (fun p => 100 ≤ (pyStrip p.text).length) rs
  refine ⟨hres.trans hfil, ?_⟩
  intro p hmem
  rw [hres] at hmem
  exact (mem_processed_results _ p hmem).2

set_option maxRecDepth 100000 in
/-- Witness for C7: a response with one 50-character-text result and one
150-character-text result yields only the 150-character item. -/
theorem c7_quality_floor_witness :
    (ExaClient.search_comprehensive stOk envPrimary5050 "mercado" 10 {}).1.results =
      [ExaClient.processResult raw150] := by
  have h := c7_quality_floor stOk envPrimary5050 "mercado" 10 {} [raw50, raw150]
    (by decide) rfl
  rw [h.1]
  rfl

/-- C8: each processed primary result carries the source text truncated to at
most 2000 characters, exactly 2000 of them when the source text is longer;
moreover every result `search_comprehensive` ever returns (on any path) has a
text of at most 2000 characters. -/
theorem c8_text_truncation (st : ExaClient.ExaState) (env : ExaClient.ExaEnv)
    (query : String) (n : Nat) (kw : ExaClient.Kwargs) (r : ExaClient.RawResult) :
    (ExaClient.processResult r).text = pySlice (r.text.getD "") 2000 ∧
    (ExaClient.processResult r).text.length ≤ 2000 ∧
    (2000 < (r.text.getD "").length → (ExaClient.processResult r).text.length = 2000) ∧
    ∀ p ∈ (ExaClient.search_comprehensive st env query n kw).1.results,
      p.text.length ≤ 2000 := by
  have hslice : ∀ s : String, (pySlice s 2000).length ≤ 2000 := by
    intro s
    rw [pySlice_length]
    exact Nat.min_le_left _ _
  refine ⟨rfl, hslice _, ?_, ?_⟩
  · intro hlong
    have := pySlice_length (r.text.getD "") 2000
    show (pySlice (r.text.getD "") 2000).length = 2000
    omega
  · intro p hmem
    rcases search_comprehensive_results_shape st env query n kw with h | ⟨resp, h⟩ | ⟨resp, h⟩
    · rw [h] at hmem
      cases hmem
    · rw [h] at hmem
      obtain ⟨⟨x, rfl⟩, _⟩ := mem_processed_results resp p hmem
      exact hslice _
    · rw [h] at hmem
      unfold ExaClient.basicResults at hmem
      cases hresp : resp.results with
      | none => rw [hresp] at hmem; cases hmem
      | some rs =>
        rw [hresp] at hmem
        simp only [List.mem_map] at hmem
        obtain ⟨x, _, rfl⟩ := hmem
        show ("" : String).length ≤ 2000
        decide

/-- A primary result whose text has 2001 characters. -/
def rawBig : ExaClient.RawResult :=
  { title := none, url := none, text := some ⟨List.replicate 2001 'c'⟩,
    score := none, published_date := none, author := none }

/-- The big text is 2001 characters long. -/
theorem rawBig_text_length : (rawBig.text.getD "").length = 2001 := by
  show (String.mk (List.replicate 2001 'c')).length = 2001
  rw [String.length_mk, List.length_replicate]

/-- Witness for C8: a 2001-character source text yields exactly 2000
characters of text. -/
theorem c8_text_truncation_witness :
    (ExaClient.processResult rawBig).text.length = 2000 :=
  (c8_text_truncation stOk envPrimaryFails "mercado" 10 {} rawBig).2.2.1
    (by rw [rawBig_text_length]; omega)

/-- C4: each of `search`, `get_contents`, `find_similar` returns `None` when
the client is unavailable (handle never initialized), when the remote call
raises, or when the response status is not 200; and returns the forwarded
parsed response exactly when the client is available and the call returns a
200 response.  No exception escapes: the three embeddings are total
functions into `Option`. -/
theorem c4_wrapper_failure_contract (st : ExaClient.ExaState)
    (call1 call2 call3 : List (String × ExaClient.PVal) → Except String ExaClient.HttpResponse)
    (query : String) (num_results : Nat)
    (include_domains exclude_domains : List String)
    (scd ecd spd epd : Option String) (use_autoprompt : Bool) (type : String)
    (ids : List String) (text highlights summary : Bool)
    (url : String) (nr2 : Nat) (exclude_source_domain : Bool) :
    (∀ d, ExaClient.search st call1 query num_results include_domains exclude_domains
        scd ecd spd epd use_autoprompt type = some d ↔
      st.available = true ∧ ∃ resp,
        call1 (ExaClient.search_payload query num_results include_domains exclude_domains
          scd ecd spd epd use_autoprompt type) = .ok resp ∧
        resp.status_code = 200 ∧ d = resp.jsonData) ∧
    (∀ d, ExaClient.get_contents st call2 ids text highlights summary = some d ↔
      st.available = true ∧ ∃ resp,
        call2 (ExaClient.get_contents_payload ids text highlights summary) = .ok resp ∧
        resp.status_code = 200 ∧ d = resp.jsonData) ∧
    (∀ d, ExaClient.find_similar st call3 url nr2 exclude_source_domain = some d ↔
      st.available = true ∧ ∃ resp,
        call3 (ExaClient.find_similar_payload url nr2 exclude_source_domain) = .ok resp ∧
        resp.status_code = 200 ∧ d = resp.jsonData) := by
  refine ⟨?_, ?_, ?_⟩ <;> intro d <;>
    [unfold ExaClient.search; unfold ExaClient.get_contents; unfold ExaClient.find_similar] <;>
    (cases hav : st.available with
     | false => simp
     | true =>
       simp only [Bool.not_true, Bool.false_eq_true, if_false, true_and]
       constructor
       · intro h
         split at h
         next => cases h
         next resp hcall =>
           split at h
           next h200 =>
             refine ⟨resp, hcall, ?_, (Option.some.inj h).symm⟩
             simpa using h200
           next => cases h
       · rintro ⟨resp, hcall, h200, rfl⟩
         rw [hcall]
         simp [h200])

/-- Witness for C4: concrete instances of the four outcomes for `search`
(unavailable, raising call, non-200 status, successful 200), and the 200
case for `get_contents` and `find_similar`. -/
theorem c4_wrapper_failure_contract_witness :
    ExaClient.search { api_key := "k", available := false }
      (fun _ => .ok { status_code := 200, jsonData := [] })
      "q" 10 [] [] none none none none true "neural" = none ∧
    ExaClient.search stOk (fun _ => .error "timeout")
      "q" 10 [] [] none none none none true "neural" = none ∧
    ExaClient.search stOk (fun _ => .ok { status_code := 404, jsonData := [] })
      "q" 10 [] [] none none none none true "neural" = none ∧
    ExaClient.search stOk (fun _ => .ok { status_code := 200, jsonData := [("results", .sl [])] })
      "q" 10 [] [] none none none none true "neural" = some [("results", .sl [])] ∧
    ExaClient.get_contents stOk (fun _ => .ok { status_code := 200, jsonData := [] })
      ["id1"] true false false = some [] ∧
    ExaClient.find_similar stOk (fun _ => .ok { status_code := 200, jsonData := [] })
      "http://example.com" 10 true = some [] := by
  refine ⟨?_, ?_, ?_, ?_, ?_, ?_⟩
  · by_contra hne
    obtain ⟨d, hd⟩ : ∃ d, ExaClient.search { api_key := "k", available := false }
        (fun _ => .ok { status_code := 200, jsonData := [] })
        "q" 10 [] [] none none none none true "neural" = some d := by
      cases hx : ExaClient.search { api_key := "k", available := false }
          (fun _ => .ok { status_code := 200, jsonData := [] })
          "q" 10 [] [] none none none none true "neural" with
      | none => exact absurd hx hne
      | some d => exact ⟨d, rfl⟩
    have := ((c4_wrapper_failure_contract { api_key := "k", available := false }
      (fun _ => .ok { status_code := 200, jsonData := [] })
      (fun _ => .ok { status_code := 200, jsonData := [] })
      (fun _ => .ok { status_code := 200, jsonData := [] })
      "q" 10 [] [] none none none none true "neural" ["id1"] true false false
      "http://example.com" 10 true).1 d).mp hd
    exact absurd this.1 (by decide)
  · by_contra hne
    obtain ⟨d, hd⟩ : ∃ d, ExaClient.search stOk (fun _ => .error "timeout")
        "q" 10 [] [] none none none none true "neural" = some d := by
      cases hx : ExaClient.search stOk (fun _ => .error "timeout")
          "q" 10 [] [] none none none none true "neural" with
      | none => exact absurd hx hne
      | some d => exact ⟨d, rfl⟩
    obtain ⟨resp, hcall, _, _⟩ := (((c4_wrapper_failure_contract stOk
      (fun _ => .error "timeout")
      (fun _ => .ok { status_code := 200, jsonData := [] })
      (fun _ => .ok { status_code := 200, jsonData := [] })
      "q" 10 [] [] none none none none true "neural" ["id1"] true false false
      "http://example.com" 10 true).1 d).mp hd).2
    cases hcall
  · by_contra hne
    obtain ⟨d, hd⟩ : ∃ d, ExaClient.search stOk
        (fun _ => .ok { status_code := 404, jsonData := [] })
        "q" 10 [] [] none none none none true "neural" = some d := by
      cases hx : ExaClient.search stOk (fun _ => .ok { status_code := 404, jsonData := [] })
          "q" 10 [] [] none none none none true "neural" with
      | none => exact absurd hx hne
      | some d => exact ⟨d, rfl⟩
    obtain ⟨resp, hcall, h200, _⟩ := (((c4_wrapper_failure_contract stOk
      (fun _ => .ok { status_code := 404, jsonData := [] })
      (fun _ => .ok { status_code := 200, jsonData := [] })
      (fun _ => .ok { status_code := 200, jsonData := [] })
      "q" 10 [] [] none none none none true "neural" ["id1"] true false false
      "http://example.com" 10 true).1 d).mp hd).2
    rw [show resp = { status_code := 404, jsonData := [] } from (Except.ok.inj hcall).symm]
      at h200
    exact absurd h200 (by decide)
  · exact ((c4_wrapper_failure_contract stOk
      (fun _ => .ok { status_code := 200, jsonData := [("results", .sl [])] })
      (fun _ => .ok { status_code := 200, jsonData := [] })
      (fun _ => .ok { status_code := 200, jsonData := [] })
      "q" 10 [] [] none none none none true "neural" ["id1"] true false false
      "http://example.com" 10 true).1 [("results", .sl [])]).mpr
      ⟨rfl, { status_code := 200, jsonData := [("results", .sl [])] }, rfl, rfl, rfl⟩
  · exact ((c4_wrapper_failure_contract stOk
      (fun _ => .ok { status_code := 200, jsonData := [] })
      (fun _ => .ok { status_code := 200, jsonData := [] })
      (fun _ => .ok { status_code := 200, jsonData := [] })
      "q" 10 [] [] none none none none true "neural" ["id1"] true false false
      "http://example.com" 10 true).2.1 []).mpr
      ⟨rfl, { status_code := 200, jsonData := [] }, rfl, rfl, rfl⟩
  · exact ((c4_wrapper_failure_contract stOk
      (fun _ => .ok { status_code := 200, jsonData := [] })
      (fun _ => .ok { status_code := 200, jsonData := [] })
      (fun _ => .ok { status_code := 200, jsonData := [] })
      "q" 10 [] [] none none none none true "neural" ["id1"] true false false
      "http://example.com" 10 true).2.2 []).mpr
      ⟨rfl, { status_code := 200, jsonData := [] }, rfl, rfl, rfl⟩

/-! ## Report generator theorems -/

theorem exceptPure_ok {ε α : Type} {a b : α} :
    (pure a = (Except.ok b : Except ε α)) ↔ a = b := by
  simp [pure, Except.pure]

/-- C2: `generate_complete_report` is total (it never raises: its type is a
plain function), and whenever the generation body raises, it returns the
emergency report, which carries the original input unchanged under
`dados_parciais` and a non-empty error string under `erro` (every exception
the body can raise renders to a non-empty message). -/
theorem c2_emergency_report (data : List (String × PyVal)) (sid : Option String)
    (now : String) (err : PyErr)
    (h : ComprehensiveReportGenerator.tryGenerate data sid now = .error err) :
    ComprehensiveReportGenerator.generate_complete_report data sid now =
      ComprehensiveReportGenerator._generate_emergency_report data sid (renderErr err) now ∧
    lookupKey (ComprehensiveReportGenerator.generate_complete_report data sid now)
      "dados_parciais" = some (.dict data) ∧
    lookupKey (ComprehensiveReportGenerator._generate_emergency_report data sid
      (renderErr err) now) "metadata_relatorio" =
        some (.dict [("session_id", optPyStr sid), ("timestamp_geracao", .str now),
          ("status", .str "EMERGENCIA"), ("erro", .str (renderErr err))]) ∧
    renderErr err ≠ "" := by
  have hg : ComprehensiveReportGenerator.generate_complete_report data sid now =
      ComprehensiveReportGenerator._generate_emergency_report data sid (renderErr err) now := by
    unfold ComprehensiveReportGenerator.generate_complete_report
    rw [h]
  refine ⟨hg, ?_, rfl, renderErr_ne_empty err⟩
  rw [hg]
  rfl

/-- Witness for C2: an input whose `pesquisa_web_massiva` entry is the
integer 5 makes the first section builder raise `AttributeError`, and the
emergency report is returned with that input intact. -/
theorem c2_emergency_report_witness :
    ComprehensiveReportGenerator.generate_complete_report
        [("pesquisa_web_massiva", PyVal.int 5)] none "2024-01-01T00:00:00" =
      ComprehensiveReportGenerator._generate_emergency_report
        [("pesquisa_web_massiva", PyVal.int 5)] none
        (renderErr (.attrErr "int" "get")) "2024-01-01T00:00:00" ∧
    lookupKey (ComprehensiveReportGenerator.generate_complete_report
        [("pesquisa_web_massiva", PyVal.int 5)] none "2024-01-01T00:00:00")
      "dados_parciais" = some (.dict [("pesquisa_web_massiva", PyVal.int 5)]) ∧
    renderErr (.attrErr "int" "get") ≠ "" := by
  have h := c2_emergency_report [("pesquisa_web_massiva", PyVal.int 5)] none
    "2024-01-01T00:00:00" (.attrErr "int" "get") rfl
  exact ⟨h.1, h.2.1, h.2.2.2⟩

namespace ComprehensiveReportGenerator

/-- When the web-research builder succeeds it returns a non-empty dict. -/
theorem web_research_nonempty {data : List (String × PyVal)} {v : PyVal}
    (h : _generate_web_research_section data = .ok v) : isNonEmptyDict v = true := by
  simp only [_generate_web_research_section, exceptBind_ok, exceptPure_ok] at h
  obtain ⟨a1, -, a2, -, a3, -, a4, -, a5, -, hv⟩ := h
  subst hv
  rfl

/-- When the avatar builder succeeds it returns a non-empty dict. -/
theorem avatar_nonempty {data : List (String × PyVal)} {v : PyVal}
    (h : _generate_avatar_section data = .ok v) : isNonEmptyDict v = true := by
  simp only [_generate_avatar_section, exceptBind_ok, exceptPure_ok] at h
  obtain ⟨a1, -, a2, -, a3, -, a4, -, a5, -, a6, -, a7, -, hv⟩ := h
  subst hv
  rfl

/-- When the drivers builder succeeds it returns a non-empty dict. -/
theorem drivers_nonempty {data : List (String × PyVal)} {v : PyVal}
    (h : _generate_drivers_section data = .ok v) : isNonEmptyDict v = true := by
  simp only [_generate_drivers_section, exceptBind_ok, exceptPure_ok] at h
  obtain ⟨a1, -, a2, -, a3, -, a4, -, a5, -, hv⟩ := h
  subst hv
  rfl

/-- When the visual-proofs builder succeeds it returns a non-empty dict. -/
theorem visual_proofs_nonempty {data : List (String × PyVal)} {v : PyVal}
    (h : _generate_visual_proofs_section data = .ok v) : isNonEmptyDict v = true := by
  simp only [_generate_visual_proofs_section, exceptBind_ok, exceptPure_ok] at h
  obtain ⟨a1, -, hv⟩ := h
  subst hv
  rfl

/-- When the anti-objection builder succeeds it returns a non-empty dict. -/
theorem anti_objection_nonempty {data : List (String × PyVal)} {v : PyVal}
    (h : _generate_anti_objection_section data = .ok v) : isNonEmptyDict v = true := by
  simp only [_generate_anti_objection_section, exceptBind_ok, exceptPure_ok] at h
  obtain ⟨a1, -, hv⟩ := h
  subst hv
  rfl

/-- When the pre-pitch builder succeeds it returns a non-empty dict. -/
theorem pre_pitch_nonempty {data : List (String × PyVal)} {v : PyVal}
    (h : _generate_pre_pitch_section data = .ok v) : isNonEmptyDict v = true := by
  simp only [_generate_pre_pitch_section, exceptBind_ok, exceptPure_ok] at h
  obtain ⟨a1, -, hv⟩ := h
  subst hv
  rfl

/-- When the future-predictions builder succeeds it returns a non-empty dict. -/
theorem future_predictions_nonempty {data : List (String × PyVal)} {v : PyVal}
    (h : _generate_future_predictions_section data = .ok v) : isNonEmptyDict v = true := by
  simp only [_generate_future_predictions_section, exceptBind_ok, exceptPure_ok] at h
  obtain ⟨a1, -, hv⟩ := h
  subst hv
  rfl

end ComprehensiveReportGenerator

/-- C5: whenever the generation body succeeds (the non-emergency path),
`generate_complete_report` returns a report whose `componentes_analise`
section map has exactly the 11 required section names as keys, in order, and
every section value is a non-empty dict. -/
theorem c5_all_sections_present (data : List (String × PyVal)) (sid : Option String)
    (now : String)
    (h : (ComprehensiveReportGenerator.tryGenerate data sid now).isOk = true) :
    ∃ comps,
      lookupKey (ComprehensiveReportGenerator.generate_complete_report data sid now)
        "componentes_analise" = some (.dict comps) ∧
      comps.map Prod.fst = ComprehensiveReportGenerator.required_components ∧
      ∀ kv ∈ comps, ComprehensiveReportGenerator.isNonEmptyDict kv.2 = true := by
  cases hx : ComprehensiveReportGenerator.tryGenerate data sid now with
  | error e => rw [hx] at h; simp [Except.isOk, Except.toBool] at h
  | ok r =>
    have hg : ComprehensiveReportGenerator.generate_complete_report data sid now = r := by
      unfold ComprehensiveReportGenerator.generate_complete_report
      rw [hx]
    unfold ComprehensiveReportGenerator.tryGenerate at hx
    simp only [exceptBind_ok, exceptPure_ok] at hx
    obtain ⟨a1, h1, a2, h2, a3, h3, a4, h4, a5, h5, a6, h6, a7, h7, m, hm, hr⟩ := hx
    rw [hg, ← hr]
    refine ⟨_, rfl, rfl, ?_⟩
    intro kv hkv
    simp only [List.mem_cons] at hkv
    rcases hkv with rfl | rfl | rfl | rfl | rfl | rfl | rfl | rfl | rfl | rfl | rfl | hkv
    · exact ComprehensiveReportGenerator.web_research_nonempty h1
    · exact ComprehensiveReportGenerator.avatar_nonempty h2
    · exact ComprehensiveReportGenerator.drivers_nonempty h3
    · exact ComprehensiveReportGenerator.visual_proofs_nonempty h4
    · exact ComprehensiveReportGenerator.anti_objection_nonempty h5
    · exact ComprehensiveReportGenerator.pre_pitch_nonempty h6
    · exact ComprehensiveReportGenerator.future_predictions_nonempty h7
    · rfl
    · rfl
    · rfl
    · rfl
    · cases hkv

/-- Witness for C5: the empty input mapping succeeds and yields all 11
sections, each a non-empty dict. -/
theorem c5_all_sections_present_witness :
    (ComprehensiveReportGenerator.tryGenerate [] none "2024-01-01T00:00:00").isOk = true ∧
    ∃ comps,
      lookupKey (ComprehensiveReportGenerator.generate_complete_report [] none
        "2024-01-01T00:00:00") "componentes_analise" = some (.dict comps) ∧
      comps.map Prod.fst = ComprehensiveReportGenerator.required_components ∧
      ∀ kv ∈ comps, ComprehensiveReportGenerator.isNonEmptyDict kv.2 = true :=
  ⟨rfl, c5_all_sections_present [] none "2024-01-01T00:00:00" rfl⟩

/-- The completeness-metrics value produced when all 11 sections are
present: 11 of 11 components, 100.0%, COMPLETO, nothing missing. -/
def completeMetrics : PyVal :=
  .dict [("componentes_incluidos", .int 11),
         ("componentes_obrigatorios", .int 11),
         ("taxa_completude", .str "100.0%"),
         ("status", .str "COMPLETO"),
         ("componentes_faltantes", .list [])]

/-- C10: on the non-emergency path the completeness metrics always report
exactly 11 components included, a 100.0% completeness rate, status COMPLETO
and an empty missing-components list, because all 11 section builders are
invoked unconditionally before the metric is computed. -/
theorem c10_metrics_always_complete (data : List (String × PyVal)) (sid : Option String)
    (now : String)
    (h : (ComprehensiveReportGenerator.tryGenerate data sid now).isOk = true) :
    lookupKey (ComprehensiveReportGenerator.generate_complete_report data sid now)
      "metricas_completude" = some completeMetrics := by
  cases hx : ComprehensiveReportGenerator.tryGenerate data sid now with
  | error e => rw [hx] at h; simp [Except.isOk, Except.toBool] at h
  | ok r =>
    have hg : ComprehensiveReportGenerator.generate_complete_report data sid now = r := by
      unfold ComprehensiveReportGenerator.generate_complete_report
      rw [hx]
    unfold ComprehensiveReportGenerator.tryGenerate at hx
    simp only [exceptBind_ok, exceptPure_ok] at hx
    obtain ⟨a1, h1, a2, h2, a3, h3, a4, h4, a5, h5, a6, h6, a7, h7, m, hm, hr⟩ := hx
    rw [hg, ← hr]
    have hmv : m = PyVal.dict
        [("componentes_incluidos", .int 11),
         ("componentes_obrigatorios", .int 11),
         ("taxa_completude", .str (ComprehensiveReportGenerator.formatPercent1 11 11)),
         ("status", .str "COMPLETO"),
         ("componentes_faltantes", .list [])] :=
      Except.ok.inj (hm.symm.trans (show _ = Except.ok _ from rfl))
    rw [hmv, show ComprehensiveReportGenerator.formatPercent1 11 11 = "100.0%" from rfl]
    rfl

/-- Witness for C10 at the empty input mapping. -/
theorem c10_metrics_always_complete_witness :
    lookupKey (ComprehensiveReportGenerator.generate_complete_report [] none
      "2024-01-01T00:00:00") "metricas_completude" = some completeMetrics :=
  c10_metrics_always_complete [] none "2024-01-01T00:00:00" rfl

theorem except_ok_bind {ε α β : Type} (a : α) (f : α → Except ε β) :
    (Except.ok a >>= f : Except ε β) = f a := rfl

/-- The comprehension `[c for c in cs if c not in dict]` keeps exactly the
names that are not keys of the dict, in order. -/
theorem missingComponents_dict (comps : List (String × PyVal)) (cs : List String) :
    ComprehensiveReportGenerator.missingComponents (.dict comps) cs =
      .ok (cs.filter (fun c => !(comps.any (fun kv => kv.1 == c)))) := by
  induction cs with
  | nil => rfl
  | cons c rest ih =>
    have hstep : ComprehensiveReportGenerator.missingComponents (.dict comps) (c :: rest) =
        (ComprehensiveReportGenerator.missingComponents (.dict comps) rest) >>= (fun tail =>
          pure (if comps.any (fun kv => kv.1 == c) then tail else c :: tail)) := rfl
    rw [hstep, ih]
    rcases Bool.eq_false_or_eq_true (comps.any fun kv => kv.1 == c) with hany | hany <;>
      simp [hany, Bind.bind, Except.bind, pure, Except.pure, List.filter_cons]

/-- C6: for every report whose `componentes_analise` entry is a section map,
the completeness metrics are exactly: the number of sections present, the
required total 11, `(present/11)*100` rendered to one decimal, status
`COMPLETO` precisely when at least 11 sections are present (`INCOMPLETO`
otherwise), and the list of exactly those required section names missing
from the section map. -/
theorem c6_completeness_metrics (report : List (String × PyVal))
    (comps : List (String × PyVal))
    (h : lookupKey report "componentes_analise" = some (.dict comps)) :
    ComprehensiveReportGenerator._calculate_completeness_metrics report =
      .ok (.dict
        [("componentes_incluidos", .int comps.length),
         ("componentes_obrigatorios", .int 11),
         ("taxa_completude", .str (ComprehensiveReportGenerator.formatPercent1 comps.length 11)),
         ("status", .str (if 11 ≤ comps.length then "COMPLETO" else "INCOMPLETO")),
         ("componentes_faltantes", .list
           ((ComprehensiveReportGenerator.required_components.filter
               (fun c => !(comps.any (fun kv => kv.1 == c)))).map .str))]) ∧
    (((if 11 ≤ comps.length then "COMPLETO" else "INCOMPLETO") : String) = "COMPLETO" ↔
      11 ≤ comps.length) := by
  constructor
  · unfold ComprehensiveReportGenerator._calculate_completeness_metrics
    rw [show dictGet report "componentes_analise" (.dict []) = PyVal.dict comps from by
      unfold dictGet; rw [h]; rfl]
    simp only [pyLenV, missingComponents_dict, except_ok_bind]
    rfl
  · rcases le_or_lt 11 comps.length with h11 | h11
    · simp [h11]
    · rw [if_neg (by omega)]
      constructor
      · intro hc
        exact absurd hc (by decide)
      · intro hc
        omega

/-- Witness for C6 at a report with two (non-required) sections: 2 of 11,
18.2%, INCOMPLETO, and all 11 required names missing. -/
theorem c6_completeness_metrics_witness :
    ComprehensiveReportGenerator._calculate_completeness_metrics
      [("componentes_analise", PyVal.dict [("a", .int 1), ("b", .int 2)])] =
    Except.ok (PyVal.dict
      [("componentes_incluidos", .int 2),
       ("componentes_obrigatorios", .int 11),
       ("taxa_completude", .str "18.2%"),
       ("status", .str "INCOMPLETO"),
       ("componentes_faltantes", .list
         (ComprehensiveReportGenerator.required_components.map .str))]) := by
  have h := (c6_completeness_metrics
    [("componentes_analise", PyVal.dict [("a", PyVal.int 1), ("b", PyVal.int 2)])]
    [("a", PyVal.int 1), ("b", PyVal.int 2)] rfl).1
  exact h.trans (by rfl)
